import Mathlib

/-!
Shallow embedding of django-publish's `publish/models.py` (the draft/public
mirror machinery of the `Publishable` model) and proofs about its publish,
unpublish and deletion-cascade algorithms.

Conventions of the embedding:

* A `Record` is one row of a publishable model.  Besides the framework
  fields declared in `models.py` (`is_public`, `publish_state`, `public`)
  it carries one scalar content field (`data`), one forward foreign key to
  the same publishable model (`fk`), and one many-to-many relation to the
  same model (`m2m`), which together exercise every relation kind the
  algorithm distinguishes.  The reverse accessor of `fk` is `children`,
  the reverse accessor of the `public` one-to-one field is `draft`
  (its Django `related_name`).
* The database is an ordered list of rows plus a primary-key allocator;
  queries return rows in database order, as a Django queryset over an
  ordered table would.
* `models.py` line 141 declares `public` with `on_delete=models.SET_NULL`,
  so hard-deleting a row nulls out every `public` reference to it.
* Exceptions (`PublishException`, `UnpublishException`, assertion
  failures, `DoesNotExist`) are modelled with `Except`.
* The mutual recursion of `publish` / `publish_changes` /
  `publish_deletions` / `_get_public_or_publish` and their inner loops is
  defunctionalised into the single fuel-indexed interpreter `run`; each
  Python method or loop body is one `Call` constructor.  Fuel only bounds
  the recursion depth; every theorem supplies enough of it.
-/

/-- Publication status: `PUBLISH_DEFAULT`, `PUBLISH_CHANGED`, `PUBLISH_DELETE`
from `models.py` lines 126-128. -/
inductive PublishState
  | default
  | changed
  | delete
deriving DecidableEq, Repr

/-- One row of the publishable model.  `pk` is `None` until first saved.
`data` stands for the model's ordinary content fields, `fk` for a forward
foreign key to the same publishable model, `m2m` (a list of primary keys)
for a many-to-many relation to the same model with no custom through
table. -/
structure Record where
  pk : Option Nat
  is_public : Bool := false
  publish_state : PublishState := .changed
  public : Option Nat := none
  data : Nat := 0
  fk : Option Nat := none
  m2m : List Nat := []
deriving DecidableEq, Repr

/-- Names of the model's fields and reverse accessors, as a closed
enumeration standing for the Python field-name strings. -/
inductive FieldTag
  | id
  | is_public
  | publish_state
  | public
  | data
  | fk
  | m2m
  | children
  | draft
deriving DecidableEq, Repr

/-- The per-class `PublishMeta` declarations (`models.py` lines 147-150),
already combined over the class hierarchy: the excluded field names and the
declared reverse relations to publish. -/
structure PublishMeta where
  publish_exclude_fields : List FieldTag
  publish_reverse_fields : List FieldTag
deriving DecidableEq, Repr

/-- The base `Publishable.PublishMeta.publish_exclude_fields` list
(`models.py` line 148). -/
def baseExcluded : List FieldTag :=
  [.id, .is_public, .publish_state, .public, .draft]

/-- PublishMeta.excluded_fields (models.py lines 159-161). -/
def PublishMeta.excluded_fields (m : PublishMeta) : List FieldTag :=
  m.publish_exclude_fields

/-- PublishMeta.reverse_fields_to_publish (models.py lines 163-165). -/
def PublishMeta.reverse_fields_to_publish (m : PublishMeta) : List FieldTag :=
  m.publish_reverse_fields

/-- The stock metadata of a model that declares nothing beyond the base
class: base exclusions, no reverse fields to publish. -/
def plainMeta : PublishMeta :=
  { publish_exclude_fields := baseExcluded, publish_reverse_fields := [] }

/-- Metadata of a model that declares `publish_reverse_fields =
['children']`. -/
def childMeta : PublishMeta :=
  { publish_exclude_fields := baseExcluded, publish_reverse_fields := [.children] }

/-- The database: rows in table order plus the next primary key to
allocate. -/
structure DB where
  recs : List Record
  nextPk : Nat
deriving DecidableEq, Repr

/-- Fetch a row by primary key. -/
def DB.fetch (db : DB) (k : Nat) : Option Record :=
  db.recs.find? (fun r => decide (r.pk = some k))

/-- Storage events, recorded so ordering claims can inspect the write
sequence. -/
inductive Event
  | saved (pk : Nat) (isPub : Bool)
  | removed (pk : Nat) (isPub : Bool)
  | m2mSet (owner : Nat) (objs : List Nat)
deriving DecidableEq, Repr

/-- Mutable storage state: the database plus the trace of writes. -/
structure St where
  db : DB
  trace : List Event
deriving DecidableEq, Repr

/-- Raw row save (Django `Model.save`): update in place when the row has a
primary key, otherwise allocate one and append the row. -/
def St.saveRec (st : St) (r : Record) : St × Record :=
  match r.pk with
  | some k =>
      ({ db := { st.db with
                 recs := st.db.recs.map (fun x => if x.pk = some k then r else x) },
         trace := st.trace ++ [.saved k r.is_public] }, r)
  | none =>
      let k := st.db.nextPk
      let r' := { r with pk := some k }
      ({ db := { recs := st.db.recs ++ [r'], nextPk := k + 1 },
         trace := st.trace ++ [.saved k r.is_public] }, r')

/-- Raw row deletion (Django `Model.delete`): drop the row and, because
`public` is declared `on_delete=SET_NULL` (`models.py` line 141), null out
every `public` reference to it. -/
def St.removeRec (st : St) (k : Nat) (isPub : Bool) : St :=
  { db := { st.db with
            recs := (st.db.recs.filter (fun x => decide (x.pk ≠ some k))).map
              (fun x => if x.public = some k then { x with public := none } else x) },
    trace := st.trace ++ [.removed k isPub] }

/-- Replace the whole many-to-many collection of row `k` (the
`remove(*old_objs)` / `add(*public_objs)` pair of `models.py` lines
382-384). -/
def St.setM2m (st : St) (k : Nat) (objs : List Nat) : St :=
  { db := { st.db with
            recs := st.db.recs.map
              (fun x => if x.pk = some k then { x with m2m := objs } else x) },
    trace := st.trace ++ [.m2mSet k objs] }

/-- Error taxonomy: `PublishException`, `UnpublishException`, a failed
`assert`, Django's `DoesNotExist`, and exhaustion of the recursion fuel. -/
inductive PubErr
  | publishException (msg : String)
  | unpublishException (msg : String)
  | assertFailed
  | doesNotExist
  | outOfFuel
deriving DecidableEq, Repr

/-- Publishable.save (models.py lines 192-198): a tracked save of a
non-public row refuses rows marked for deletion and otherwise stamps them
`CHANGED`; `mark_changed=False` or a public row saves verbatim. -/
def saveModel (st : St) (r : Record) (mark_changed : Bool) :
    Except PubErr (St × Record) :=
  if ¬ r.is_public ∧ mark_changed then
    if r.publish_state = .delete then
      .error (.publishException "Attempting to save model marked for deletion")
    else
      .ok (st.saveRec { r with publish_state := .changed })
  else
    .ok (st.saveRec r)

/-- Publishable.delete (models.py lines 200-205): a published row is
marked `PUBLISH_DELETE` and saved without change tracking; otherwise the
row is hard-deleted. -/
def deleteModel (st : St) (r : Record) (mark_for_deletion : Bool) :
    Except PubErr (St × Record) :=
  if r.public ≠ none ∧ mark_for_deletion then
    saveModel st { r with publish_state := .delete } false
  else
    match r.pk with
    | some k => .ok (st.removeRec k r.is_public, r)
    | none => .error .assertFailed

/-- Modelled from the spec: the visited-set tracker `NestedSet` of
`publish/utils.py`, whose source is not under `src/`.  Spec section 4.1
gives its contract: `add(object, parent)`, `contains(object)`,
`original(object)` returning the first-seen canonical instance, and a
parent tree for reporting, with identity taken by the record's persistent
key. -/
structure NestedSet where
  items : List Nat
  parents : List (Nat × Option Nat)
deriving DecidableEq, Repr

/-- Empty visited set, a fresh tracker per top-level call. -/
def NestedSet.empty : NestedSet := ⟨[], []⟩

/-- Modelled from the spec: membership, by persistent key. -/
def NestedSet.contains (ns : NestedSet) (k : Nat) : Bool :=
  ns.items.contains k

/-- Modelled from the spec: record a processed key together with the parent
through which it was reached. -/
def NestedSet.add (ns : NestedSet) (k : Nat) (parent : Option Nat) : NestedSet :=
  if ns.contains k then ns
  else ⟨ns.items ++ [k], ns.parents ++ [(k, parent)]⟩

/-- The `all_published.original(self).public` read of `models.py` line 309.
The canonical first-seen instance of a visited record is kept in sync with
its stored row at every point this is consulted (its only field writes are
immediately followed by a save), so it is read back from the database:
fetch the row, then fetch the row its `public` key points at. -/
def canonicalPublic (st : St) (k : Nat) : Option Record :=
  match st.db.fetch k with
  | some cur => cur.public.bind st.db.fetch
  | none => none

/-- The rows a reverse accessor yields for owner key `k`: `children` are
the rows whose `fk` points at `k`; `draft` is the (at most one) row whose
`public` one-to-one key points at `k`. -/
def reverseRows (db : DB) (a : FieldTag) (k : Nat) : List Record :=
  if a = .children then db.recs.filter (fun r => decide (r.fk = some k))
  else (db.recs.find? (fun r => decide (r.public = some k))).toList

/-- Defunctionalised call states of the mutually recursive methods of
`Publishable` and their inner loops. -/
inductive Call
  | publish (self : Record) (parent : Option Nat)
  | publish_changes (self : Record) (parent : Option Nat)
  | publish_deletions (self : Record) (parent : Option Nat)
  | get_public_or_publish (self : Record) (parent : Option Nat)
  | copy_fields (self : Record) (pv : Record) (names : List FieldTag)
  | resolve_m2m (self : Record) (objs : List Record) (acc : List (Option Record))
  | reverse_accessors (self : Record) (selfPk : Nat) (accs : List FieldTag)
  | publish_items (items : List Record) (selfPk : Nat)
  | deletion_accessors (self : Record) (selfPk : Nat) (accs : List FieldTag)
  | deletion_items (items : List Record) (selfPk : Nat)

/-- Result value of one interpreter call. -/
inductive RunVal
  | unitV
  | recV (r : Option Record)
  | pvV (pv : Record)
  | listV (rs : List (Option Record))
deriving DecidableEq, Repr

/-- Order in which `self._meta.fields` yields the concrete fields of the
model (`models.py` line 324): the automatic `id`, the three framework
fields declared in `Publishable`, then the model's own fields. -/
def fieldOrder : List FieldTag := [.id, .is_public, .publish_state, .public, .data, .fk]

/-- The save block of publish_changes (models.py lines 340-346): on a
real run, save the public version, then point the draft at it, stamp the
draft `PUBLISH_DEFAULT` and save it without change tracking; a dry run
leaves everything as it was. -/
def saveStep (dry : Bool) (st2 : St) (self pv1 : Record) :
    Except PubErr (St × Record × Record) :=
  if dry then .ok (st2, self, pv1)
  else
    let sp := st2.saveRec pv1
    match saveModel sp.1 { self with public := sp.2.pk, publish_state := .default }
        false with
    | .error e => .error e
    | .ok (st4, self2) => .ok (st4, self2, sp.2)

/-- The mutually recursive publish machinery of `Publishable`
(`models.py` lines 224-454), defunctionalised: one step interpreter,
structurally recursive on `fuel`.  `meta` is the model's combined
`PublishMeta`; `dry` is the `dry_run` flag threaded through every call.
The pre/post publish signals are external notification hooks (spec
section 6) and are not modelled. -/
def run (meta : PublishMeta) (dry : Bool) :
    Nat → St → NestedSet → Call → Except PubErr (St × NestedSet × RunVal)
  | 0, _, _, _ => .error .outOfFuel
  | fuel + 1, st, ns, c =>
    match c with
    | .publish self parent =>
      -- models.py lines 224-241
      if self.is_public then
        .error (.publishException
          "Cannot publish public model - publish should be called from draft model")
      else if self.pk = none then
        .error (.publishException "Please save model before publishing")
      else if self.publish_state = .delete then
        match run meta dry fuel st ns (.publish_deletions self parent) with
        | .error e => .error e
        | .ok (st', ns', _) => .ok (st', ns', .recV none)
      else
        run meta dry fuel st ns (.publish_changes self parent)
    | .get_public_or_publish self parent =>
      -- models.py lines 260-265
      match self.public.bind st.db.fetch with
      | some p => .ok (st, ns, .recV (some p))
      | none => run meta dry fuel st ns (.publish self parent)
    | .publish_changes self parent =>
      -- models.py lines 292-415
      if self.is_public then .error .assertFailed
      else
        match self.pk with
        | none => .error .assertFailed
        | some pk =>
          if ns.contains pk then .ok (st, ns, .recV (canonicalPublic st pk))
          else
            let ns1 := ns.add pk parent
            let pv0 := match self.public.bind st.db.fetch with
              | some p => p
              | none => { pk := none, is_public := true }
            match run meta dry fuel st ns1 (.copy_fields self pv0 fieldOrder) with
            | .error e => .error e
            | .ok (st2, ns2, v) =>
              let pv1 := match v with | .pvV p => p | _ => pv0
              match saveStep dry st2 self pv1 with
              | .error e => .error e
              | .ok (st4, selfA, pvS) =>
                -- copy over many-to-many fields (lines 348-384)
                match (if FieldTag.m2m ∈ meta.excluded_fields then
                         Except.ok (st4, ns2, ([] : List (Option Record)))
                       else
                         match run meta dry fuel st4 ns2
                             (.resolve_m2m selfA (selfA.m2m.filterMap st4.db.fetch) []) with
                         | .error e => .error e
                         | .ok (st5, ns3, .listV rs) => .ok (st5, ns3, rs)
                         | .ok (st5, ns3, _) => .ok (st5, ns3, [])) with
                | .error e => .error e
                | .ok (st5, ns3, resolved) =>
                  let st6 :=
                    if FieldTag.m2m ∈ meta.excluded_fields ∨ dry then st5
                    else
                      match pvS.pk with
                      | some pvk =>
                          st5.setM2m pvk (resolved.filterMap (fun r => r.bind (fun x => x.pk)))
                      | none => st5
                  -- one-to-many and one-to-one reverse relations (lines 386-411)
                  match run meta dry fuel st6 ns3
                      (.reverse_accessors selfA pk [.children, .draft]) with
                  | .error e => .error e
                  | .ok (st7, ns4, _) => .ok (st7, ns4, .recV (some pvS))
    | .copy_fields self pv names =>
      -- the regular-field loop, models.py lines 324-338
      match names with
      | [] => .ok (st, ns, .pvV pv)
      | n :: rest =>
        if n ∈ meta.excluded_fields then
          run meta dry fuel st ns (.copy_fields self pv rest)
        else
          match n with
          | .id =>
            let pv' := if dry then pv else { pv with pk := self.pk }
            run meta dry fuel st ns (.copy_fields self pv' rest)
          | .is_public =>
            let pv' := if dry then pv else { pv with is_public := self.is_public }
            run meta dry fuel st ns (.copy_fields self pv' rest)
          | .publish_state =>
            let pv' := if dry then pv else { pv with publish_state := self.publish_state }
            run meta dry fuel st ns (.copy_fields self pv' rest)
          | .data =>
            let pv' := if dry then pv else { pv with data := self.data }
            run meta dry fuel st ns (.copy_fields self pv' rest)
          | .public =>
            -- a RelatedField whose target is publishable: resolve first
            match self.public.bind st.db.fetch with
            | none =>
              let pv' := if dry then pv else { pv with public := none }
              run meta dry fuel st ns (.copy_fields self pv' rest)
            | some v =>
              match run meta dry fuel st ns (.get_public_or_publish v self.pk) with
              | .error e => .error e
              | .ok (st', ns', rv) =>
                let res := match rv with | .recV r => r | _ => none
                let pv' := if dry then pv else { pv with public := res.bind (fun x => x.pk) }
                run meta dry fuel st' ns' (.copy_fields self pv' rest)
          | .fk =>
            match self.fk.bind st.db.fetch with
            | none =>
              let pv' := if dry then pv else { pv with fk := none }
              run meta dry fuel st ns (.copy_fields self pv' rest)
            | some v =>
              match run meta dry fuel st ns (.get_public_or_publish v self.pk) with
              | .error e => .error e
              | .ok (st', ns', rv) =>
                let res := match rv with | .recV r => r | _ => none
                let pv' := if dry then pv else { pv with fk := res.bind (fun x => x.pk) }
                run meta dry fuel st' ns' (.copy_fields self pv' rest)
          | _ => run meta dry fuel st ns (.copy_fields self pv rest)
    | .resolve_m2m self objs acc =>
      -- the per-item resolution of a many-to-many field, lines 374-377
      match objs with
      | [] => .ok (st, ns, .listV acc)
      | o :: rest =>
        match run meta dry fuel st ns (.get_public_or_publish o self.pk) with
        | .error e => .error e
        | .ok (st', ns', v) =>
          let r := match v with | RunVal.recV r => r | _ => none
          run meta dry fuel st' ns' (.resolve_m2m self rest (acc ++ [r]))
    | .reverse_accessors self selfPk accs =>
      -- the reverse-relation loop of publish_changes, lines 388-411
      match accs with
      | [] => .ok (st, ns, .unitV)
      | a :: rest =>
        if a ∈ meta.excluded_fields ∨ a ∉ meta.reverse_fields_to_publish then
          run meta dry fuel st ns (.reverse_accessors self selfPk rest)
        else
          let items := reverseRows st.db a selfPk
          match run meta dry fuel st ns (.publish_items items selfPk) with
          | .error e => .error e
          | .ok (st', ns', _) =>
            -- tidy up anything that needs deleting (lines 406-411)
            let st'' :=
              if self.public ≠ none ∧ dry = false ∧ a = .children then
                let ids := items.filterMap (fun r =>
                  match r.pk with
                  | some rk =>
                      match st'.db.fetch rk with
                      | some cur => cur.public
                      | none => r.public
                  | none => r.public)
                match self.public with
                | some sp =>
                    let doomed := (reverseRows st'.db .children sp).filter
                      (fun r => decide (∀ i ∈ ids, r.pk ≠ some i))
                    doomed.foldl (fun s r =>
                      match r.pk with
                      | some k => s.removeRec k r.is_public
                      | none => s) st'
                | none => st'
              else st'
            run meta dry fuel st'' ns' (.reverse_accessors self selfPk rest)
    | .publish_items items selfPk =>
      -- the related-item loop, lines 403-404
      match items with
      | [] => .ok (st, ns, .unitV)
      | r :: rest =>
        match run meta dry fuel st ns (.publish r (some selfPk)) with
        | .error e => .error e
        | .ok (st', ns', _) => run meta dry fuel st' ns' (.publish_items rest selfPk)
    | .publish_deletions self parent =>
      -- models.py lines 417-454
      if self.publish_state ≠ .delete then .ok (st, ns, .recV none)
      else
        match self.pk with
        | none => .error .assertFailed
        | some pk =>
          if ns.contains pk then .ok (st, ns, .recV none)
          else
            let ns1 := ns.add pk parent
            match run meta dry fuel st ns1 (.deletion_accessors self pk [.children, .draft]) with
            | .error e => .error e
            | .ok (st2, ns2, _) =>
              if dry then .ok (st2, ns2, .recV none)
              else
                let publicRec := self.public.bind st2.db.fetch
                match deleteModel st2 { self with publish_state := self.publish_state } false with
                | .error e => .error e
                | .ok (st3, _) =>
                  match publicRec with
                  | none => .ok (st3, ns2, .recV none)
                  | some p =>
                    match deleteModel st3 p false with
                    | .error e => .error e
                    | .ok (st4, _) => .ok (st4, ns2, .recV none)
    | .deletion_accessors self selfPk accs =>
      -- the reverse-relation loop of publish_deletions, lines 434-446;
      -- note it does not consult reverse_fields_to_publish
      match accs with
      | [] => .ok (st, ns, .unitV)
      | a :: rest =>
        if a ∈ meta.excluded_fields then
          run meta dry fuel st ns (.deletion_accessors self selfPk rest)
        else
          match (if a = .children then Except.ok (reverseRows st.db .children selfPk)
                 else
                   -- a one-to-one accessor has no .all(); a missing row
                   -- raises DoesNotExist, which lines 441-444 do not catch
                   match st.db.recs.find? (fun r => decide (r.public = some selfPk)) with
                   | some r => Except.ok [r]
                   | none => .error PubErr.doesNotExist) with
          | .error e => .error e
          | .ok items =>
            match run meta dry fuel st ns (.deletion_items items selfPk) with
            | .error e => .error e
            | .ok (st', ns', _) =>
              run meta dry fuel st' ns' (.deletion_accessors self selfPk rest)
    | .deletion_items items selfPk =>
      -- the instance loop, lines 445-446
      match items with
      | [] => .ok (st, ns, .unitV)
      | r :: rest =>
        match run meta dry fuel st ns (.publish_deletions r (some selfPk)) with
        | .error e => .error e
        | .ok (st', ns', _) => run meta dry fuel st' ns' (.deletion_items rest selfPk)

/-- Publishable.publish as an end-to-end operation. -/
def publish (meta : PublishMeta) (dry : Bool) (fuel : Nat) (st : St) (ns : NestedSet)
    (self : Record) (parent : Option Nat) :
    Except PubErr (St × NestedSet × Option Record) :=
  match run meta dry fuel st ns (.publish self parent) with
  | .error e => .error e
  | .ok (st', ns', v) => .ok (st', ns', match v with | RunVal.recV r => r | _ => none)

/-- Publishable.publish_changes as an end-to-end operation. -/
def publish_changes (meta : PublishMeta) (dry : Bool) (fuel : Nat) (st : St) (ns : NestedSet)
    (self : Record) (parent : Option Nat) :
    Except PubErr (St × NestedSet × Option Record) :=
  match run meta dry fuel st ns (.publish_changes self parent) with
  | .error e => .error e
  | .ok (st', ns', v) => .ok (st', ns', match v with | RunVal.recV r => r | _ => none)

/-- Publishable.publish_deletions as an end-to-end operation. -/
def publish_deletions (meta : PublishMeta) (dry : Bool) (fuel : Nat) (st : St) (ns : NestedSet)
    (self : Record) (parent : Option Nat) :
    Except PubErr (St × NestedSet) :=
  match run meta dry fuel st ns (.publish_deletions self parent) with
  | .error e => .error e
  | .ok (st', ns', _) => .ok (st', ns')

/-- Publishable.unpublish (models.py lines 243-258). -/
def unpublish (st : St) (self : Record) (dry : Bool) :
    Except PubErr (St × Option Record) :=
  if self.is_public then
    .error (.unpublishException
      "Cannot unpublish a public model - unpublish should be called from draft model")
  else if self.pk = none then
    .error (.unpublishException "Please save the model before unpublishing")
  else
    let public_model := self.public.bind st.db.fetch
    if public_model ≠ none ∧ dry = false then
      match saveModel st { self with public := none } true with
      | .error e => .error e
      | .ok (st2, _) =>
        match public_model with
        | some p =>
          match deleteModel st2 p false with
          | .error e => .error e
          | .ok (st3, _) => .ok (st3, public_model)
        | none => .ok (st2, public_model)
    else .ok (st, public_model)

/-! ## Claim theorems -/

/-- C7: a tracked save (`mark_changed=True`, the default) of a non-public
record marked `PUBLISH_DELETE` fails with the state-conflict error and
returns no new state; a tracked save of any other non-public record stamps
it `PUBLISH_CHANGED`; a save with the internal override
(`mark_changed=False`), or a save of a public record, never raises and
writes the record verbatim, leaving `publish_state` untouched. -/
theorem save_state_tracking (st : St) (r : Record) :
    (r.is_public = false → r.publish_state = .delete →
      saveModel st r true =
        .error (.publishException "Attempting to save model marked for deletion")) ∧
    (r.is_public = false → r.publish_state ≠ .delete →
      saveModel st r true = .ok (st.saveRec { r with publish_state := .changed })) ∧
    (saveModel st r false = .ok (st.saveRec r)) ∧
    (r.is_public = true → saveModel st r true = .ok (st.saveRec r)) := by
  refine ⟨?_, ?_, ?_, ?_⟩ <;> intros <;> simp_all [saveModel]

/-- Witness for save_state_tracking at a concrete record. -/
theorem save_state_tracking_witness :
    saveModel { db := { recs := [], nextPk := 0 }, trace := [] }
        { pk := some 1, publish_state := .delete } true =
      .error (.publishException "Attempting to save model marked for deletion") :=
  (save_state_tracking _ _).1 rfl rfl

/-- C8: publishing a public record fails with the invalid-operation
`PublishException`, and publishing a never-saved record (no primary key)
fails with the precondition `PublishException`; both errors are raised by
the guards at the top of `publish`, before any traversal, and the result
does not depend on the database, so nothing is mutated. -/
theorem publish_guards (meta : PublishMeta) (dry : Bool) (fuel : Nat) (st : St)
    (ns : NestedSet) (self : Record) (parent : Option Nat) :
    (self.is_public = true →
      publish meta dry (fuel + 1) st ns self parent =
        .error (.publishException
          "Cannot publish public model - publish should be called from draft model")) ∧
    (self.is_public = false → self.pk = none →
      publish meta dry (fuel + 1) st ns self parent =
        .error (.publishException "Please save model before publishing")) := by
  constructor <;> intros <;> simp_all [publish, run]

/-- Witness for publish_guards at concrete records. -/
theorem publish_guards_witness :
    publish plainMeta false 1 { db := { recs := [], nextPk := 0 }, trace := [] }
        NestedSet.empty { pk := some 1, is_public := true } none =
      .error (.publishException
        "Cannot publish public model - publish should be called from draft model") ∧
    publish plainMeta false 1 { db := { recs := [], nextPk := 0 }, trace := [] }
        NestedSet.empty { pk := none } none =
      .error (.publishException "Please save model before publishing") :=
  ⟨(publish_guards plainMeta false 0 _ NestedSet.empty _ none).1 rfl,
   (publish_guards plainMeta false 0 _ NestedSet.empty _ none).2 rfl rfl⟩

/-- C10 counterexample: a draft that has a public mirror but is marked
`PUBLISH_DELETE` makes `unpublish` raise the state-conflict save error
rather than clear `public`, flip the state and remove the mirror, because
the internal `self.save()` of `unpublish` runs with change tracking on. -/
theorem unpublish_pending_delete_counterexample :
    unpublish
        { db := { recs :=
            [{ pk := some 1, publish_state := .delete, public := some 10 },
             { pk := some 10, is_public := true }], nextPk := 11 }, trace := [] }
        { pk := some 1, publish_state := .delete, public := some 10 } false =
      .error (.publishException "Attempting to save model marked for deletion") := by
  rfl

/-- C10 (amended): for a draft whose state is not `PENDING_DELETE` and
whose `public` key resolves to a mirror row, a non-dry `unpublish` performs
exactly two writes - it saves the draft with `public` cleared and
`publish_state` stamped `CHANGED` (all other fields verbatim), then
hard-removes the mirror row - and returns the removed mirror.  With
`dry_run=True`, or when there is no mirror, it mutates nothing and returns
the mirror (possibly none).  A published draft already marked
`PENDING_DELETE` instead fails with the state-conflict save error. -/
theorem unpublish_effects (st : St) (self : Record) :
    (∀ k kp p, self.is_public = false → self.pk = some k →
      self.publish_state ≠ .delete → self.public = some kp →
      st.db.fetch kp = some p →
      unpublish st self false =
        .ok (((st.saveRec
                { self with public := none, publish_state := .changed }).1).removeRec
                  kp p.is_public,
             some p)) ∧
    (∀ k, self.is_public = false → self.pk = some k →
      unpublish st self true = .ok (st, self.public.bind st.db.fetch)) ∧
    (∀ k, self.is_public = false → self.pk = some k →
      self.public.bind st.db.fetch = none →
      unpublish st self false = .ok (st, none)) ∧
    (∀ k kp p, self.is_public = false → self.pk = some k →
      self.publish_state = .delete → self.public = some kp →
      st.db.fetch kp = some p →
      unpublish st self false =
        .error (.publishException "Attempting to save model marked for deletion")) := by
  refine ⟨?_, ?_, ?_, ?_⟩
  · intro k kp p hpub hpk hstate hkp hfetch
    have hppk : p.pk = some kp := by
      have := List.find?_some hfetch
      exact of_decide_eq_true this
    simp [unpublish, hpub, hpk, hkp, hfetch, saveModel, hstate, deleteModel, hppk]
  · intro k hpub hpk
    simp [unpublish, hpub, hpk]
  · intro k hpub hpk hnone
    simp [unpublish, hpub, hpk, hnone]
  · intro k kp p hpub hpk hstate hkp hfetch
    simp [unpublish, hpub, hpk, hkp, hfetch, saveModel, hstate]

/-- Concrete state for the unpublish witness: a published draft and its
mirror. -/
def stUnpub : St :=
  { db := { recs :=
      [{ pk := some 1, publish_state := .default, public := some 10 },
       { pk := some 10, is_public := true }], nextPk := 11 }, trace := [] }

/-- Witness for unpublish_effects at a concrete published draft. -/
theorem unpublish_effects_witness :
    unpublish stUnpub { pk := some 1, publish_state := .default, public := some 10 } false =
      .ok ((stUnpub.saveRec
              { pk := some 1, publish_state := .changed, public := none }).1.removeRec
                10 true,
           some { pk := some 10, is_public := true }) :=
  (unpublish_effects _ _).1 1 10 { pk := some 10, is_public := true } rfl rfl
    (by decide) rfl (by decide)

/-! ## Deletion-cascade ordering (spec: deletion ordering scenario) -/

/-- Parent draft marked for deletion, already published (mirror row 10). -/
def dParent (d : Nat) : Record :=
  { pk := some 1, publish_state := .delete, public := some 10, data := d }

/-- First child draft (fk to the parent), marked for deletion, mirror 11. -/
def dChild1 (d : Nat) : Record :=
  { pk := some 2, publish_state := .delete, public := some 11, data := d, fk := some 1 }

/-- Second child draft (fk to the parent), marked for deletion, mirror 12. -/
def dChild2 (d : Nat) : Record :=
  { pk := some 3, publish_state := .delete, public := some 12, data := d, fk := some 1 }

/-- The parent's public mirror. -/
def dParentM (d : Nat) : Record := { pk := some 10, is_public := true, data := d }

/-- The first child's public mirror (fk resolved to the parent's mirror). -/
def dChild1M (d : Nat) : Record :=
  { pk := some 11, is_public := true, data := d, fk := some 10 }

/-- The second child's public mirror. -/
def dChild2M (d : Nat) : Record :=
  { pk := some 12, is_public := true, data := d, fk := some 10 }

/-- Database of the deletion scenario: the three drafts and their three
mirrors. -/
def stDel (a b c : Nat) : St :=
  { db := { recs := [dParent a, dChild1 b, dChild2 c, dParentM a, dChild1M b, dChild2M c],
            nextPk := 20 }, trace := [] }

/-- C1 counterexample: in the two-children deletion scenario the very last
removal is the parent's public mirror (row 10), not the parent's draft
(row 1) - the draft is removed at position five, before the mirror - so
the stated ordering "parent's draft last, after the parent's public
mirror" is false.  `publish_deletions` does `self.delete()` first and
`public.delete()` second (models.py lines 448-452). -/
theorem publish_deletions_draft_not_last :
    publish_deletions childMeta false 30 (stDel 0 0 0) NestedSet.empty (dParent 0) none =
      .ok ({ db := { recs := [], nextPk := 20 },
             trace := [.removed 2 false, .removed 11 true, .removed 3 false,
                       .removed 12 true, .removed 1 false, .removed 10 true] },
           { items := [1, 2, 3], parents := [(1, none), (2, some 1), (3, some 1)] }) ∧
    ([Event.removed 2 false, .removed 11 true, .removed 3 false,
      .removed 12 true, .removed 1 false, .removed 10 true].getLast? =
        some (.removed 10 true)) ∧
    (Event.removed 10 true ≠ Event.removed 1 false) :=
  ⟨rfl, rfl, by decide⟩

/-- C1 (amended): for a parent draft marked `PENDING_DELETE` with two
published children likewise marked, `publish_deletions(parent)` removes
each child's draft and public mirror before touching the parent, so both
children's mirrors go before the parent's mirror; for each record the
draft is removed immediately before (not after) its own public mirror, so
the parent's draft is the second-to-last removal and the parent's mirror
is last. -/
theorem publish_deletions_children_first (a b c : Nat) :
    publish_deletions childMeta false 30 (stDel a b c) NestedSet.empty (dParent a) none =
      .ok ({ db := { recs := [], nextPk := 20 },
             trace := [.removed 2 false, .removed 11 true, .removed 3 false,
                       .removed 12 true, .removed 1 false, .removed 10 true] },
           { items := [1, 2, 3], parents := [(1, none), (2, some 1), (3, some 1)] }) :=
  rfl

/-! ## Mutual reference cycle (spec: cycle termination scenario) -/

/-- Draft A of the two-record cycle: its fk points at B. -/
def cycleA (a : Nat) : Record := { pk := some 1, data := a, fk := some 2 }

/-- Draft B of the two-record cycle: its fk points back at A. -/
def cycleB (b : Nat) : Record := { pk := some 2, data := b, fk := some 1 }

/-- Database holding just the cycle A <-> B. -/
def stCycle (a b : Nat) : St :=
  { db := { recs := [cycleA a, cycleB b], nextPk := 3 }, trace := [] }

/-- Row of draft A after the run: published, mirror row 4. -/
def cycleAOut (a : Nat) : Record :=
  { pk := some 1, publish_state := .default, public := some 4, data := a, fk := some 2 }

/-- Row of draft B after the run: published, mirror row 3. -/
def cycleBOut (b : Nat) : Record :=
  { pk := some 2, publish_state := .default, public := some 3, data := b, fk := some 1 }

/-- B's mirror.  Its `fk` is none: while B was being published, resolving
its fk to A hit the visited-set early return and A had no mirror yet. -/
def cycleBM (b : Nat) : Record := { pk := some 3, is_public := true, data := b }

/-- A's mirror, fk resolved to B's mirror. -/
def cycleAM (a : Nat) : Record :=
  { pk := some 4, is_public := true, data := a, fk := some 3 }

/-- Full state after publishing the cycle from A. -/
def stCycleOut (a b : Nat) : St :=
  { db := { recs := [cycleAOut a, cycleBOut b, cycleBM b, cycleAM a], nextPk := 5 },
    trace := [.saved 3 true, .saved 2 false, .m2mSet 3 [],
              .saved 4 true, .saved 1 false, .m2mSet 4 []] }

/-- C3: publishing draft A of a mutual reference cycle A <-> B terminates;
each of A and B enters the visited set exactly once (`items = [1, 2]`);
each draft ends with exactly one mirror (A's is row 4, B's is row 3, and
those are the only public rows); and, in general, a repeated encounter of
an already-visited draft returns at once with the canonical instance's
public mirror and no state change (models.py lines 308-309).  In the
scenario this early return is what B's resolution of A hits while A is
still unsaved, which is why B's mirror ends with `fk = none`. -/
theorem cycle_publish_terminates (a b : Nat) :
    (publish childMeta false 20 (stCycle a b) NestedSet.empty (cycleA a) none =
      .ok (stCycleOut a b, { items := [1, 2], parents := [(1, none), (2, some 1)] },
           some (cycleAM a))) ∧
    (∀ m dr f st ns self parent pk, self.is_public = false → self.pk = some pk →
      ns.contains pk = true →
      run m dr (f + 1) st ns (.publish_changes self parent) =
        .ok (st, ns, .recV (canonicalPublic st pk))) := by
  constructor
  · rfl
  · intro m dr f st ns self parent pk h1 h2 h3
    simp [run, h1, h2, h3]

/-- Witness for the general early-return conjunct of
cycle_publish_terminates, at a concrete visited record. -/
theorem cycle_publish_terminates_witness :
    run childMeta false 1 (stCycle 0 0) ⟨[1], [(1, none)]⟩
        (.publish_changes (cycleA 0) none) =
      .ok (stCycle 0 0, ⟨[1], [(1, none)]⟩, .recV (canonicalPublic (stCycle 0 0) 1)) :=
  (cycle_publish_terminates 0 0).2 childMeta false 0 _ _ _ none 1 rfl rfl (by decide)

/-! ## Idempotent republish (spec: idempotence scenario) -/

/-- A fresh, never-published single draft. -/
def idemDraft (d : Nat) : Record := { pk := some 1, data := d }

/-- Database holding only the fresh draft. -/
def stIdem (d : Nat) : St := { db := { recs := [idemDraft d], nextPk := 2 }, trace := [] }

/-- The draft after its first publish: state `DEFAULT`, `public` set. -/
def idemDraftPub (d : Nat) : Record :=
  { pk := some 1, publish_state := .default, public := some 2, data := d }

/-- The mirror created by the first publish. -/
def idemMirror (d : Nat) : Record := { pk := some 2, is_public := true, data := d }

/-- Database contents after the first publish. -/
def dbIdem (d : Nat) : DB := { recs := [idemDraftPub d, idemMirror d], nextPk := 3 }

/-- C9: publishing an unchanged, already-published draft a second time (as
a fresh top-level operation) rewrites only identical values: the database
after the second publish equals the database before it, and the returned
mirror is the same row (pk 2) both times. -/
theorem publish_idempotent (d : Nat) :
    (publish childMeta false 20 (stIdem d) NestedSet.empty (idemDraft d) none =
      .ok ({ db := dbIdem d, trace := [.saved 2 true, .saved 1 false, .m2mSet 2 []] },
           { items := [1], parents := [(1, none)] }, some (idemMirror d))) ∧
    (publish childMeta false 20 { db := dbIdem d, trace := [] } NestedSet.empty
        (idemDraftPub d) none =
      .ok ({ db := dbIdem d, trace := [.saved 2 true, .saved 1 false, .m2mSet 2 []] },
           { items := [1], parents := [(1, none)] }, some (idemMirror d))) :=
  ⟨rfl, rfl⟩

/-! ## Publish dispatch (spec: orchestrator state machine) -/

/-- C4: `publish` on a saved draft dispatches on `publish_state`: a
`PENDING_DELETE` draft delegates to `publish_deletions` and yields no
record; any other draft runs `publish_changes`.  On a successful
non-dry-run publish of a fresh draft, the draft row ends with
`publish_state = DEFAULT` and `public` pointing at the new mirror, and
the mirror is returned. -/
theorem publish_dispatch (m : PublishMeta) (dr : Bool) (f : Nat) (st : St)
    (ns : NestedSet) (self : Record) (parent : Option Nat) :
    (self.is_public = false → self.pk ≠ none → self.publish_state = .delete →
      publish m dr (f + 1) st ns self parent =
        (match publish_deletions m dr f st ns self parent with
         | .ok (st', ns') => .ok (st', ns', none)
         | .error e => .error e)) ∧
    (self.is_public = false → self.pk ≠ none → self.publish_state ≠ .delete →
      publish m dr (f + 1) st ns self parent =
        publish_changes m dr f st ns self parent) ∧
    (∀ d, publish childMeta false 20 (stIdem d) NestedSet.empty (idemDraft d) none =
        .ok ({ db := dbIdem d, trace := [.saved 2 true, .saved 1 false, .m2mSet 2 []] },
             { items := [1], parents := [(1, none)] }, some (idemMirror d)) ∧
      (dbIdem d).fetch 1 = some (idemDraftPub d) ∧
      (idemDraftPub d).publish_state = .default ∧
      (idemDraftPub d).public = some 2) := by
  refine ⟨?_, ?_, ?_⟩
  · intro h1 h2 h3
    simp only [publish, publish_deletions, run, h1, h2, h3]
    rcases hr : run m dr f st ns (.publish_deletions self parent)
      with e | ⟨st', ns', v⟩ <;> simp [hr]
  · intro h1 h2 h3
    simp only [publish, publish_changes, run, h1, h2, h3]
    simp [h2, h3]
  · intro d
    exact ⟨rfl, rfl, rfl, rfl⟩

/-- Witness for publish_dispatch: the non-delete branch at a concrete
fresh draft. -/
theorem publish_dispatch_witness :
    publish childMeta false 20 (stIdem 0) NestedSet.empty (idemDraft 0) none =
      publish_changes childMeta false 19 (stIdem 0) NestedSet.empty (idemDraft 0) none :=
  (publish_dispatch childMeta false 19 (stIdem 0) NestedSet.empty (idemDraft 0) none).2.1
    rfl (by decide) (by decide)

/-! ## Many-to-many replacement (spec: m2m replace scenario) -/

/-- Draft D, previously published with related set containing X and Y
(its mirror is row 10, whose collection is `[11, 12]`), and whose draft
related set is now X and Z (`[2, 4]`). -/
def m2mD (d1 : Nat) : Record :=
  { pk := some 1, data := d1, public := some 10, m2m := [2, 4] }

/-- Related draft X, already published as row 11. -/
def m2mX (d2 : Nat) : Record := { pk := some 2, data := d2, public := some 11 }

/-- Related draft Y, already published as row 12, no longer related to D. -/
def m2mY (d3 : Nat) : Record := { pk := some 3, data := d3, public := some 12 }

/-- Related draft Z, never published. -/
def m2mZ (d4 : Nat) : Record := { pk := some 4, data := d4 }

/-- D's mirror, whose collection still holds X's and Y's mirrors. -/
def m2mDM (d1 : Nat) : Record :=
  { pk := some 10, is_public := true, data := d1, m2m := [11, 12] }

/-- X's mirror. -/
def m2mXM (d2 : Nat) : Record := { pk := some 11, is_public := true, data := d2 }

/-- Y's mirror. -/
def m2mYM (d3 : Nat) : Record := { pk := some 12, is_public := true, data := d3 }

/-- Database of the many-to-many scenario. -/
def stM2m (d1 d2 d3 d4 : Nat) : St :=
  { db := { recs := [m2mD d1, m2mX d2, m2mY d3, m2mZ d4, m2mDM d1, m2mXM d2, m2mYM d3],
            nextPk := 30 }, trace := [] }

/-- D's row after the publish. -/
def m2mDOut (d1 : Nat) : Record :=
  { pk := some 1, publish_state := .default, public := some 10, data := d1, m2m := [2, 4] }

/-- Z's row after the publish: published on the fly, mirror row 30. -/
def m2mZOut (d4 : Nat) : Record :=
  { pk := some 4, publish_state := .default, public := some 30, data := d4 }

/-- D's mirror after the publish: collection replaced by `[11, 30]`. -/
def m2mDMOut (d1 : Nat) : Record :=
  { pk := some 10, is_public := true, data := d1, m2m := [11, 30] }

/-- Z's freshly created mirror. -/
def m2mZM (d4 : Nat) : Record := { pk := some 30, is_public := true, data := d4 }

/-- Full state after publishing D. -/
def stM2mOut (d1 d2 d3 d4 : Nat) : St :=
  { db := { recs := [m2mDOut d1, m2mX d2, m2mY d3, m2mZOut d4, m2mDMOut d1,
                     m2mXM d2, m2mYM d3, m2mZM d4], nextPk := 31 },
    trace := [.saved 10 true, .saved 1 false, .saved 30 true, .saved 4 false,
              .m2mSet 30 [], .m2mSet 10 [11, 30]] }

set_option maxHeartbeats 2000000 in
/-- C5: with D's draft related set changed from X, Y to X, Z, a non-dry
`publish(D)` replaces the mirror's whole collection: Y's mirror (row 12)
drops out, X's mirror (11) is kept, Z is published on the fly (mirror 30)
and added, so the stored collection of D's mirror is exactly `[11, 30]`.
The returned record is the mirror instance as it stood when saved, before
the collection write went to the database. -/
theorem m2m_replace (d1 d2 d3 d4 : Nat) :
    (publish childMeta false 18 (stM2m d1 d2 d3 d4) NestedSet.empty (m2mD d1) none =
      .ok (stM2mOut d1 d2 d3 d4,
           { items := [1, 4], parents := [(1, none), (4, some 1)] },
           some (m2mDM d1))) ∧
    (((stM2mOut d1 d2 d3 d4).db.fetch 10).map Record.m2m = some [11, 30]) ∧
    (((stM2mOut d1 d2 d3 d4).db.fetch 4).map Record.public = some (some 30)) ∧
    ((12 : Nat) ∉ ([11, 30] : List Nat)) :=
  ⟨rfl, rfl, rfl, by decide⟩

/-! ## Deletion cascade traversal set (C6) -/

/-- Parent draft of the undeclared-reverse scenario, marked for deletion,
mirror row 10. -/
def c6Parent (a : Nat) : Record :=
  { pk := some 1, publish_state := .delete, public := some 10, data := a }

/-- Child draft (fk to the parent), marked for deletion, mirror row 11. -/
def c6Child (b : Nat) : Record :=
  { pk := some 2, publish_state := .delete, public := some 11, data := b, fk := some 1 }

/-- The parent's mirror. -/
def c6ParentM (a : Nat) : Record := { pk := some 10, is_public := true, data := a }

/-- The child's mirror. -/
def c6ChildM (b : Nat) : Record :=
  { pk := some 11, is_public := true, data := b, fk := some 10 }

/-- Database of the undeclared-reverse deletion scenario. -/
def stC6 (a b : Nat) : St :=
  { db := { recs := [c6Parent a, c6Child b, c6ParentM a, c6ChildM b], nextPk := 20 },
    trace := [] }

/-- C6 counterexample: with the stock metadata, which declares no reverse
fields to publish (`publish_reverse_fields = []`), the deletion cascade
still recurses through the undeclared `children` accessor and deletes the
child's draft and mirror - so `publish_deletions` does not traverse "the
same declared reverse-relation set" as `publish_changes`: models.py lines
438-439 check only `excluded_fields`, not `reverse_fields_to_publish`. -/
theorem deletions_undeclared_reverse_counterexample :
    FieldTag.children ∉ plainMeta.reverse_fields_to_publish ∧
    publish_deletions plainMeta false 20 (stC6 0 0) NestedSet.empty (c6Parent 0) none =
      .ok ({ db := { recs := [], nextPk := 20 },
             trace := [.removed 2 false, .removed 11 true,
                       .removed 1 false, .removed 10 true] },
           { items := [1, 2], parents := [(1, none), (2, some 1)] }) :=
  ⟨by decide, rfl⟩

/-- Draft parent of the contrast scenario (not marked for deletion). -/
def c6bParent (a : Nat) : Record := { pk := some 1, data := a }

/-- Its draft child, reachable only through the undeclared `children`
reverse accessor. -/
def c6bChild (b : Nat) : Record := { pk := some 2, data := b, fk := some 1 }

/-- Database of the contrast scenario. -/
def stC6b (a b : Nat) : St :=
  { db := { recs := [c6bParent a, c6bChild b], nextPk := 10 }, trace := [] }

/-- C6 (amended): the deletion cascade walks every non-excluded reverse
relation to a publishable model, whether or not it is declared in
`reverse_fields_to_publish` - a superset of what `publish_changes`
traverses.  Concretely, with the stock metadata (no declared reverse
fields) the cascade still deletes the child reached through `children`
(first conjunct), while `publish_changes` on the same metadata leaves such
a child untouched and unvisited (second conjunct).  Recursion into a
related record deletes it only when its own state is `PENDING_DELETE`:
on any other record `publish_deletions` is an immediate no-op (third
conjunct), and an already-visited record is skipped (fourth conjunct). -/
theorem deletions_traverse_all_reverse (a b : Nat) :
    (publish_deletions plainMeta false 20 (stC6 a b) NestedSet.empty (c6Parent a) none =
      .ok ({ db := { recs := [], nextPk := 20 },
             trace := [.removed 2 false, .removed 11 true,
                       .removed 1 false, .removed 10 true] },
           { items := [1, 2], parents := [(1, none), (2, some 1)] })) ∧
    (publish plainMeta false 20 (stC6b a b) NestedSet.empty (c6bParent a) none =
      .ok ({ db := { recs :=
               [{ pk := some 1, publish_state := .default, public := some 10, data := a },
                c6bChild b,
                { pk := some 10, is_public := true, data := a }], nextPk := 11 },
             trace := [.saved 10 true, .saved 1 false, .m2mSet 10 []] },
           { items := [1], parents := [(1, none)] },
           some { pk := some 10, is_public := true, data := a })) ∧
    (∀ m dr f st ns self parent, self.publish_state ≠ .delete →
      publish_deletions m dr (f + 1) st ns self parent = .ok (st, ns)) ∧
    (∀ m dr f st ns self parent pk, self.publish_state = .delete →
      self.pk = some pk → ns.contains pk = true →
      publish_deletions m dr (f + 1) st ns self parent = .ok (st, ns)) := by
  refine ⟨rfl, rfl, ?_, ?_⟩
  · intro m dr f st ns self parent h
    simp [publish_deletions, run, h]
  · intro m dr f st ns self parent pk h1 h2 h3
    simp [publish_deletions, run, h1, h2, h3]

/-- Witness for the no-op conjuncts of deletions_traverse_all_reverse at a
concrete record whose state is not PENDING_DELETE. -/
theorem deletions_traverse_all_reverse_witness :
    publish_deletions plainMeta false 1 (stIdem 0) NestedSet.empty (idemDraft 0) none =
      .ok (stIdem 0, NestedSet.empty) :=
  (deletions_traverse_all_reverse 0 0).2.2.1 plainMeta false 0 (stIdem 0)
    NestedSet.empty (idemDraft 0) none (by decide)

/-! ## Dry-run non-mutation (C2) -/

/-- On a dry run the save block does nothing. -/
theorem saveStep_dry (st2 : St) (self pv1 : Record) :
    saveStep true st2 self pv1 = .ok (st2, self, pv1) := rfl

set_option maxHeartbeats 4000000 in
/-- Every interpreter call of a dry run returns the storage state it was
given: each write site of publish_changes and publish_deletions sits under
an `if not dry_run` guard, so the traversal recurses but never saves,
never replaces a collection and never deletes. -/
theorem run_dry_writes_nothing (meta : PublishMeta) :
    ∀ fuel st ns c st' ns' v,
      run meta true fuel st ns c = .ok (st', ns', v) → st' = st := by
  intro fuel
  induction fuel with
  | zero =>
    intro st ns c st' ns' v h
    simp [run] at h
  | succ f ih =>
    intro st ns c st' ns' v h
    cases c with
    | publish_changes self parent =>
      simp only [run, saveStep_dry, eq_self_iff_true, or_true, if_true] at h
      split at h
      · exact Except.noConfusion h
      split at h
      · exact Except.noConfusion h
      split at h
      · cases h; rfl
      split at h
      · exact Except.noConfusion h
      rename_i st2 ns2 v2 hcopy
      split at h
      · exact Except.noConfusion h
      rename_i st5 ns3 res hm2m
      have h5 : st5 = st2 := by
        split at hm2m
        · cases hm2m; rfl
        · split at hm2m
          · exact Except.noConfusion hm2m
          · rename_i st5' ns3' rs hres
            cases hm2m
            exact ih _ _ _ _ _ _ hres
          · rename_i st5' ns3' v5 hres
            cases hm2m
            exact ih _ _ _ _ _ _ hres
      split at h
      · exact Except.noConfusion h
      rename_i st7 ns4 v7 hrev
      cases h
      exact (ih _ _ _ _ _ _ hrev).trans (h5.trans (ih _ _ _ _ _ _ hcopy))
    | _ =>
      simp only [run, saveStep_dry] at h
      repeat' split at h
      all_goals first
        | exact Except.noConfusion h
        | exact ih _ _ _ _ _ _ h
        | exact (ih _ _ _ _ _ _ h).trans (ih _ _ _ _ _ _ (by assumption))
        | (cases h; first
            | rfl
            | exact ih _ _ _ _ _ _ (by assumption)
            | exact (ih _ _ _ _ _ _ (by assumption)).trans (ih _ _ _ _ _ _ (by assumption)))
        | simp_all

/-- C2 (amended): a dry-run `publish` writes nothing to storage - the
state after the call (all rows, the key allocator and the write trace)
equals the state before - while still performing the recursive traversal.
The visited set it produces is not always identical in membership to a
real publish's: when the real publish prunes a reverse-related public
mirror, the SET_NULL on the orphaned draft's `public` reference can make
the real traversal publish (and so visit) a record the dry traversal
resolves through its still-standing mirror (see the counterexample). -/
theorem publish_dry_run_writes_nothing (meta : PublishMeta) (fuel : Nat) (st : St)
    (ns : NestedSet) (self : Record) (parent : Option Nat) (st' : St)
    (ns' : NestedSet) (r : Option Record) :
    publish meta true fuel st ns self parent = .ok (st', ns', r) → st' = st := by
  intro h
  cases hr : run meta true fuel st ns (.publish self parent) with
  | error e => simp [publish, hr] at h
  | ok x =>
    obtain ⟨a, b, v⟩ := x
    simp only [publish, hr, Except.ok.injEq, Prod.mk.injEq] at h
    rcases h with ⟨h1, h2, h3⟩
    exact h1 ▸ run_dry_writes_nothing meta fuel st ns _ a b v hr

/-- Witness for publish_dry_run_writes_nothing: the dry run over a
single-draft database returns that database unchanged. -/
theorem publish_dry_run_writes_nothing_witness :
    stIdem 0 = stIdem 0 :=
  publish_dry_run_writes_nothing childMeta 20 (stIdem 0) NestedSet.empty (idemDraft 0)
    none (stIdem 0) { items := [1], parents := [(1, none)] }
    (some { pk := none, is_public := true }) rfl

/-- Top-level draft Q of the dry-run divergence scenario. -/
def dryQ : Record := { pk := some 1, data := 1 }

/-- Child P of Q, already published as row 20. -/
def dryP : Record := { pk := some 2, data := 2, fk := some 1, public := some 20 }

/-- Child R of Q, never published, holding Y in its many-to-many set. -/
def dryR : Record := { pk := some 3, data := 3, fk := some 1, m2m := [4] }

/-- Draft Y, once a child of P and published as row 21, now detached. -/
def dryY : Record := { pk := some 4, data := 4, public := some 21 }

/-- P's mirror. -/
def dryPM : Record := { pk := some 20, is_public := true, data := 2 }

/-- Y's stale mirror, still a child of P's mirror. -/
def dryYM : Record := { pk := some 21, is_public := true, data := 4, fk := some 20 }

/-- Database of the dry-run divergence scenario. -/
def stDry : St :=
  { db := { recs := [dryQ, dryP, dryR, dryY, dryPM, dryYM], nextPk := 30 }, trace := [] }

/-- The visited-set membership a publish call produced. -/
def visitedOf (x : Except PubErr (St × NestedSet × Option Record)) : List Nat :=
  match x with
  | .ok (_, ns, _) => ns.items
  | .error _ => []

/-- The storage state a publish call produced (or a fallback on error). -/
def stateOf (x : Except PubErr (St × NestedSet × Option Record)) (dflt : St) : St :=
  match x with
  | .ok (st, _, _) => st
  | .error _ => dflt

set_option maxHeartbeats 2000000 in
/-- C2 counterexample: on `stDry`, a real `publish(Q)` visits records
1, 2, 3 and 4 but the dry run visits only 1, 2 and 3 (while indeed writing
nothing), so the two visited sets differ in membership at record 4.  The
real run prunes Y's stale mirror while publishing P, the SET_NULL clears
Y's `public` reference, and the later resolution of Y through R's
many-to-many set then re-publishes Y; the dry run still sees Y's mirror
and never visits Y. -/
theorem dry_run_visited_differs :
    (visitedOf (publish childMeta false 18 stDry NestedSet.empty dryQ none) =
      [1, 2, 3, 4]) ∧
    (visitedOf (publish childMeta true 18 stDry NestedSet.empty dryQ none) =
      [1, 2, 3]) ∧
    (stateOf (publish childMeta true 18 stDry NestedSet.empty dryQ none) stDry = stDry) ∧
    ((4 : Nat) ∈ ([1, 2, 3, 4] : List Nat)) ∧ ((4 : Nat) ∉ ([1, 2, 3] : List Nat)) :=
  ⟨rfl, rfl, rfl, by decide, by decide⟩
